import Mathlib

/-!
Verification development for the nadder-style server core:
the request dispatch engine (`src/listen.ts`), the route/static indexer
(the unnamed source file: `pathToPattern`, `indexRoutes`, `indexStatic`),
and the WebSocket channel subsystem.

The TypeScript source is shallowly embedded: JS objects become Lean
structures, mutation becomes explicit state passing, a thrown exception
becomes a boolean "threw" flag carried alongside the (already mutated)
state, and `undefined`/`null` become `Option`.
-/

namespace Nadder

/-! ## String helpers (JS string/regex operations used by the source) -/

/-- Does the first character list start with the second? -/
def listStartsWith : List Char → List Char → Bool
  | _, [] => true
  | [], _ :: _ => false
  | a :: as, b :: bs => a == b && listStartsWith as bs

/-- Is `pat` a contiguous sublist of `s`? -/
def listContainsSub : List Char → List Char → Bool
  | [], pat => pat.isEmpty
  | a :: rest, pat => listStartsWith (a :: rest) pat || listContainsSub rest pat

/-- JS `String.prototype.includes` (substring containment). -/
def strContains (s pat : String) : Bool :=
  listContainsSub s.toList pat.toList

/-- `String.startsWith`, computed structurally on the character lists. -/
def strStartsWith (s pat : String) : Bool :=
  listStartsWith s.toList pat.toList

/-- `String.endsWith`, computed structurally on the character lists. -/
def strEndsWith (s pat : String) : Bool :=
  listStartsWith s.toList.reverse pat.toList.reverse

/-- Split a character list at a separator character, keeping empty
chunks (the semantics of JS `"".split` and of `String.split`: splitting
the empty string yields one empty chunk). -/
def splitCharAux (c : Char) : List Char → List Char → List (List Char)
  | [], acc => [acc.reverse]
  | a :: rest, acc =>
    if a == c then acc.reverse :: splitCharAux c rest []
    else splitCharAux c rest (a :: acc)

/-- `path.split("/")`-style splitting on one character. -/
def strSplitChar (s : String) (c : Char) : List String :=
  (splitCharAux c s.toList []).map fun l => ⟨l⟩

/-- JS `href.replaceAll(/\/$/g, "")`: the anchored regex matches only the
single final slash, so exactly one trailing `/` is removed when present. -/
def stripTrailingSlash (s : String) : String :=
  if strEndsWith s "/" then s.dropRight 1 else s

/-- Collapse every run of consecutive `/` characters to a single `/`
(the `\/+` alternative of the indexer's slash-normalizing regex). -/
def collapseSlashes : List Char → List Char
  | [] => []
  | [c] => [c]
  | a :: b :: rest =>
    if a == '/' && b == '/' then collapseSlashes (b :: rest)
    else a :: collapseSlashes (b :: rest)

/-- JS `.replace(/(^\/*|\/+)/g, "/")`: runs of slashes collapse to one and a
leading slash is ensured (the `^\/*` alternative matches even the empty
prefix and is replaced by `/`). -/
def normalizeSlashes (s : String) : String :=
  let t : String := ⟨collapseSlashes s.toList⟩
  if strStartsWith t "/" then t else "/" ++ t

/-! ## URLPattern pathname model

`URLPattern({ pathname })` is an external platform collaborator; we model
the fragment of its syntax this repository produces: literal segments,
`:name` (one segment, captured) and `:name*` (zero or more trailing
segments, captured).  Matching splits both pattern and path on `/`. -/

inductive Seg
  | lit (s : String)
  | param (name : String)
  | rest (name : String)
deriving Repr, DecidableEq

/-- Compile a pathname string into segment matchers. -/
def compilePathname (pathname : String) : List Seg :=
  (strSplitChar pathname '/').map fun part =>
    if strStartsWith part ":" then
      if strEndsWith part "*" then .rest ((part.drop 1).dropRight 1)
      else .param (part.drop 1)
    else .lit part

/-- Match pattern segments against path segments, extracting named groups. -/
def matchSegs : List Seg → List String → Option (List (String × String))
  | [.rest n], xs => some [(n, String.intercalate "/" xs)]
  | [], [] => some []
  | .lit s :: ps, x :: xs =>
    if s == x then matchSegs ps xs else none
  | .param n :: ps, x :: xs =>
    (matchSegs ps xs).map ((n, x) :: ·)
  | _, _ => none

/-- `pattern.test(href)` / `pattern.exec(href)?.pathname?.groups` combined:
the pathname of the request URL is matched against the compiled pattern
(the model assumes the href carries no query/fragment, as in the claims). -/
def patMatch (segs : List Seg) (path : String) : Option (List (String × String)) :=
  matchSegs segs (strSplitChar path '/')

/-! ## `src/listen.ts`: response facet and request context -/

/-- The subset of the `std/http` status-text table the server core uses
(external collaborator `HTTPStatusText`). -/
def statusText : Nat → Option String
  | 200 => some "OK"
  | 304 => some "Not Modified"
  | 404 => some "Not Found"
  | 500 => some "Internal Server Error"
  | 501 => some "Not Implemented"
  | _ => none

/-- JS `Headers.prototype.set`: replace the value under the key when
present, else append the pair. -/
def listSet (k v : String) (hs : List (String × String)) : List (String × String) :=
  if hs.any (·.1 == k) then hs.map (fun e => if e.1 == k then (k, v) else e)
  else hs ++ [(k, v)]

/-- The response facet of a request context (`ctx.res`).  `frozen` models
`Object.freeze(ctx.res)`: the source is an ES module, hence strict-mode
code, so a property assignment on a frozen object throws `TypeError`
(leaving the object unchanged); freezing is shallow, so the `Headers`
object held by the `headers` property stays internally mutable. -/
structure ResFacet where
  body : String
  status : Nat
  headers : List (String × String)
  sent : Bool
  frozen : Bool
deriving Repr, DecidableEq

/-- `ctx.res.body = v`: a strict-mode property assignment.  On a frozen
facet it throws `TypeError` (flag `true`) and changes nothing. -/
def assignBody (v : String) (r : ResFacet) : ResFacet × Bool :=
  if r.frozen then (r, true) else ({ r with body := v }, false)

/-- `ctx.res.status = s`: a strict-mode property assignment.  On a frozen
facet it throws `TypeError` and changes nothing. -/
def assignStatus (s : Nat) (r : ResFacet) : ResFacet × Bool :=
  if r.frozen then (r, true) else ({ r with status := s }, false)

/-- `ctx.res.headers = hs`: reassigning the property itself.  On a frozen
facet it throws `TypeError` and changes nothing. -/
def assignHeaders (hs : List (String × String)) (r : ResFacet) : ResFacet × Bool :=
  if r.frozen then (r, true) else ({ r with headers := hs }, false)

/-- `ctx.res.headers.set(k, v)`: mutates the `Headers` object in place.
`Object.freeze` is shallow, so this succeeds even on a frozen facet. -/
def headersSet (k v : String) (r : ResFacet) : ResFacet :=
  { r with headers := listSet k v r.headers }

/-- The body text `sendStatus` installs: `` `${status} ${text ?? ""}` ``. -/
def statusLine (s : Nat) : String :=
  toString s ++ " " ++ ((statusText s).getD "")

/-- `ctx.res.sendStatus(status)`: sets body then status via property
assignments; on a frozen facet the body assignment throws first. -/
def sendStatus (s : Nat) (r : ResFacet) : ResFacet × Bool :=
  let b := assignBody (statusLine s) r
  if b.2 then b else assignStatus s b.1

/-- `ctx.res.markForDownload(filename?)`: sets the content-disposition
header through `Headers.set`. -/
def markForDownload (filename : Option String) (r : ResFacet) : ResFacet :=
  headersSet "content-disposition"
    ("attachment" ++ (match filename with
      | some f => "; filename=\"" ++ f ++ "\""
      | none => "")) r

/-- The initial response facet installed at context creation. -/
def initRes : ResFacet :=
  { body := "", status := 200, headers := [], sent := false, frozen := false }

/-- Finalization (`(ctx.res as Mutable).sent = true; Object.freeze(ctx.res)`):
the `sent` assignment happens just before the freeze, so both flags end up
set. -/
def finalizeRes (r : ResFacet) : ResFacet :=
  { r with sent := true, frozen := true }

/-- Request body decoding outcomes (`ctx.req.bodyType`). -/
inductive BodyType
  | json
  | text
  | formData
  | blob
deriving Repr, DecidableEq

/-- The request facet of a context (`ctx.req`), restricted to the fields
the dispatcher reads or writes.  `hasBody`/`contentType` stand for the raw
`req.body` presence and `content-type` header. -/
structure ReqFacet where
  method : String
  path : String
  hasBody : Bool
  contentType : String
  bodyType : Option BodyType
  pathParams : List (String × String)
deriving Repr, DecidableEq

/-- A request context: request facet plus response facet. -/
structure Ctx where
  req : ReqFacet
  res : ResFacet
deriving Repr, DecidableEq

/-- A handler or middleware callback.  JS callbacks mutate the context and
may throw; the embedding returns the mutated context together with a
"threw" flag (mutations made before the throw persist). -/
def Callback := Ctx → Ctx × Bool

/-! ## `src/listen.ts`: route registry -/

/-- One entry of the `routes` array: `[method, URLPattern, callback]`. -/
structure RouteEntry where
  method : String
  pattern : List Seg
  callback : Callback

/-- `handleRoute(method, path, callback)` compiles the path and appends. -/
def handleRoute (method path : String) (callback : Callback)
    (routes : List RouteEntry) : List RouteEntry :=
  routes ++ [{ method := method, pattern := compilePathname path, callback := callback }]

/-- The loop body of `getRoute`: skip an entry unless
`["*", route[0]].includes(method)` — i.e. unless the *request* method is
`"*"` or equals the entry's method — then test the pattern. -/
def getRouteLoop (method href : String) :
    List RouteEntry → Option (Callback × List (String × String))
  | [] => none
  | r :: rs =>
    if !(method == "*" || method == r.method) then getRouteLoop method href rs
    else
      match patMatch r.pattern href with
      | none => getRouteLoop method href rs
      | some groups => some (r.callback, groups)

/-- `getRoute(method, href)`: strips the trailing slash from the href and
returns the first matching entry's callback and extracted path params, or
`undefined` when none matches. -/
def getRoute (routes : List RouteEntry) (method href : String) :
    Option (Callback × List (String × String)) :=
  getRouteLoop method (stripTrailingSlash href) routes

/-! ## `src/listen.ts`: dispatcher -/

/-- The accepted-method list (`RequestMethods`): the five CRUD methods plus
the wildcard `"*"` used when registering routes. -/
def RequestMethods : List String :=
  ["POST", "GET", "PUT", "PATCH", "DELETE", "*"]

/-- The inbound request, as seen before a context is built.
`bodyDecodeFails` records whether the raw body is malformed for the
decoder the content-type sniffing will select (`req.json()` /
`req.formData()` reject on such input). -/
structure Request where
  method : String
  path : String
  hasBody : Bool
  contentType : String
  bodyDecodeFails : Bool
deriving Repr, DecidableEq

/-- Context creation at the top of the `serve` callback. -/
def mkCtx (r : Request) : Ctx :=
  { req := { method := r.method, path := r.path, hasBody := r.hasBody,
             contentType := r.contentType, bodyType := none, pathParams := [] },
    res := initRes }

/-- Body decoding, inside the same `try` as routing and middleware:
content-type sniffing picks json / text / formData with substring tests,
falling back to blob; skipped when the request has no body.  The awaited
`req.json()` and `req.formData()` decoders reject on malformed input —
the throw (flag `true`) happens before `bodyType` is assigned, so the
context is returned unchanged; `req.text()` and `req.blob()` do not
reject. -/
def parseBody (r : Request) (c : Ctx) : Ctx × Bool :=
  if r.hasBody then
    if strContains r.contentType "application/json" then
      if r.bodyDecodeFails then (c, true)
      else ({ c with req := { c.req with bodyType := some .json } }, false)
    else if strContains r.contentType "text/plain" then
      ({ c with req := { c.req with bodyType := some .text } }, false)
    else if strContains r.contentType "application/x-www-form-urlencoded"
         || strContains r.contentType "multipart/form-data" then
      if r.bodyDecodeFails then (c, true)
      else ({ c with req := { c.req with bodyType := some .formData } }, false)
    else ({ c with req := { c.req with bodyType := some .blob } }, false)
  else (c, false)

/-- Routing plus the primary handler: on a match, install the extracted
path params and run the callback; on a miss, preset the response to 404
(`sendStatus(HTTPStatus.NotFound)`), which does not throw. -/
def handleStage (routes : List RouteEntry) (r : Request) (c : Ctx) : Ctx × Bool :=
  match getRoute routes r.method r.path with
  | some rp => rp.1 { c with req := { c.req with pathParams := rp.2 } }
  | none => ({ c with res := (sendStatus 404 c.res).1 }, false)

/-- The `for (const callback of middleware) await callback(ctx)` loop,
run inside the same `try`: a throwing middleware aborts the rest. -/
def runMiddleware : List Callback → Ctx → Ctx × Bool
  | [], c => (c, false)
  | m :: ms, c =>
    let r := m c
    if r.2 then (r.1, true) else runMiddleware ms r.1

/-- Finalize the context (`sent = true; Object.freeze`). -/
def finalizeCtx (c : Ctx) : Ctx :=
  { c with res := finalizeRes c.res }

/-- The per-request dispatcher body of `listenAndServe`: method
validation, then one `try` covering body decode, routing + handler and
the middleware loop, with the `catch` converting any throw — a rejected
body decode included — to a 500, then finalization.  The response facet
is never frozen before finalization, so the `sendStatus` calls here
cannot themselves throw (`.1` takes their result).  (The model keeps no
query string, so `url.href` routing coincides with `path`.) -/
def dispatch (routes : List RouteEntry) (mws : List Callback) (r : Request) : Ctx :=
  if RequestMethods.contains r.method then
    let p := parseBody r (mkCtx r)
    if p.2 then finalizeCtx { p.1 with res := (sendStatus 500 p.1.res).1 }
    else
      let step1 := handleStage routes r p.1
      let step2 := if step1.2 then step1 else runMiddleware mws step1.1
      finalizeCtx (if step2.2 then { step2.1 with res := (sendStatus 500 step2.1.res).1 }
                   else step2.1)
  else
    finalizeCtx { mkCtx r with res := (sendStatus 501 (mkCtx r).res).1 }

/-! ## `src/listen.ts`: WebSocket upgrade and channels

Sockets are identified by natural numbers; `Deno.upgradeWebSocket` is the
platform collaborator that would supply the fresh socket recorded in the
`fresh` field.  `activeSocketConnections` (a `Map` of `Set`s) becomes an
association list of insertion-ordered duplicate-free socket lists. -/

abbrev Socket := Nat

/-- `activeSocketConnections.get(name)` as an association lookup. -/
def lookupChannel (name : String) (m : List (String × List Socket)) :
    Option (List Socket) :=
  (m.find? (·.1 == name)).map (·.2)

/-- `addSocketToChannel`: create the set when absent, then `Set.add`. -/
def addSocketToChannel (name : String) (s : Socket)
    (m : List (String × List Socket)) : List (String × List Socket) :=
  match lookupChannel name m with
  | none => m ++ [(name, [s])]
  | some _ =>
    m.map fun e =>
      if e.1 == name then (e.1, if e.2.contains s then e.2 else e.2 ++ [s]) else e

/-- `removeSocketFromChannel`: no-op when the channel is absent, else
`Set.delete` (the emptied entry stays in the map). -/
def removeSocketFromChannel (name : String) (s : Socket)
    (m : List (String × List Socket)) : List (String × List Socket) :=
  match lookupChannel name m with
  | none => m
  | some _ =>
    m.map fun e => if e.1 == name then (e.1, e.2.filter (· != s)) else e

/-- The per-request closure state around `ctx.upgrade`: the captured
`socket` variable, the `sent` flag of the response facet, the current
channel name, the global channel map, and the socket the next
`Deno.upgradeWebSocket` call would yield. -/
structure UpgradeState where
  available : Bool
  socket : Option Socket
  sent : Bool
  channelName : String
  channels : List (String × List Socket)
  fresh : Socket
deriving Repr, DecidableEq

/-- `ctx.upgrade.socket()`: `undefined` when upgrade is unavailable;
the memoized (or absent) prior socket when one exists or the response was
already finalized; otherwise performs the upgrade, stores the socket, and
adds it to the current channel. -/
def socketAccessor (st : UpgradeState) : Option Socket × UpgradeState :=
  if !st.available then (none, st)
  else if st.socket.isSome || st.sent then (st.socket, st)
  else
    let s := st.fresh
    (some s, { st with socket := some s,
                       channels := addSocketToChannel st.channelName s st.channels })

/-- `ctx.upgrade.channel.join(name)`: obtain the socket (possibly
upgrading); when one exists move it from the old channel to `name`; in
every case set the current channel name to `name`. -/
def channelJoin (name : String) (st : UpgradeState) : UpgradeState :=
  let r := socketAccessor st
  let st2 :=
    match r.1 with
    | some s =>
      { r.2 with channels :=
          addSocketToChannel name s (removeSocketFromChannel r.2.channelName s r.2.channels) }
    | none => r.2
  { st2 with channelName := name }

/-- The recipients of `ctx.upgrade.channel.broadcast(message)`: every
socket in the set registered under the context's current channel name
(none when the channel has no entry). -/
def broadcastTargets (st : UpgradeState) : List Socket :=
  (lookupChannel st.channelName st.channels).getD []

/-! ## Route indexer: `pathToPattern`

The unnamed indexer source compiles a route-file path (extension already
stripped) to a `URLPattern` pathname.  Note the `[name]` branch of the
source evaluates the template literal `` `:${part.slice(1, -1)}` `` without
returning it, so control falls through to `return part`. -/

/-- The per-segment map inside `pathToPattern`. -/
def segMap (part : String) : String :=
  if strEndsWith part "]" then
    if strStartsWith part "[..." then ":" ++ ((part.drop 4).dropRight 1) ++ "*"
    else if strStartsWith part "[" then part
    else part
  else part

/-- JS `.replace(/\/index$/, "")`. -/
def stripIndexSuffix (s : String) : String :=
  if strEndsWith s "/index" then s.dropRight 6 else s

/-- JS `.replace(/\/_(middleware|data)$/, "/*?")`. -/
def replaceMwDataSuffix (s : String) : String :=
  if strEndsWith s "/_middleware" then s.dropRight 12 ++ "/*?"
  else if strEndsWith s "/_data" then s.dropRight 6 ++ "/*?"
  else s

/-- The pathname string `pathToPattern` hands to `new URLPattern`. -/
def pathToPatternPathname (path : String) : String :=
  normalizeSlashes
    (replaceMwDataSuffix
      (stripIndexSuffix
        (String.intercalate "/" ((strSplitChar path '/').map segMap))))

/-- `extname` (external `std/path` collaborator): the extension from the
last dot of the basename, empty when the basename has no dot or starts
with its only dot. -/
def extname (s : String) : String :=
  let base := ((strSplitChar s '/').getLast?).getD s
  let cs := base.toList
  match (List.range cs.length).filter (fun i => cs.getD i ' ' == '.') |>.getLast? with
  | none => ""
  | some i => if i == 0 then "" else ⟨cs.drop i⟩

/-- `pathname.slice(0, -ext.length)` as used by `indexRoutes` before
pattern compilation. -/
def stripExtension (s : String) : String :=
  s.dropRight (extname s).length

/-! ## Route indexer: file-role classification -/

/-- The basename when the pathname contains a `/` (the classification
regexes all require a slash immediately before the `_`). -/
def basenameAfterSlash (s : String) : Option String :=
  let parts := strSplitChar s '/'
  if parts.length ≥ 2 then parts.getLast? else none

/-- `/\/_data\.[^\x2f]+$/.test(pathname)`. -/
def isDataFile (s : String) : Bool :=
  match basenameAfterSlash s with
  | none => false
  | some b => strStartsWith b "_data." && b.length > 6

/-- `/\/_middleware\.[^\x2f]+$/.test(pathname)`. -/
def isMiddlewareFile (s : String) : Bool :=
  match basenameAfterSlash s with
  | none => false
  | some b => strStartsWith b "_middleware." && b.length > 12

/-- The digits captured by `pathname.match(/\/_(\d+)+\.[^\x2f]+$/)`:
the basename must be `_`, one or more digits, `.`, then at least one more
character. -/
def statusCapture (s : String) : Option String :=
  match basenameAfterSlash s with
  | none => none
  | some b =>
    if strStartsWith b "_" then
      let ds : List Char := (b.drop 1).toList.takeWhile (·.isDigit)
      let rest : String := (b.drop 1).drop ds.length
      if ds.isEmpty then none
      else if strStartsWith rest "." && rest.length > 1 then some ⟨ds⟩
      else none
    else none

/-- `isErrorStatus` from `std/http` (external collaborator): client or
server error range. -/
def isErrorStatus (n : Nat) : Bool :=
  400 ≤ n && n < 600

/-- JS `+s` on a digit string. -/
def digitsToNat (s : String) : Nat :=
  s.toList.foldl (fun n c => 10 * n + (c.toNat - 48)) 0

/-- The indexer's `isErrorHandler` flag: `isErrorStatus(+status?.[1])` —
the *second character* of the captured digits is coerced to a number
(`NaN`, i.e. `none`, when the capture is missing or has fewer than two
characters), and tested against the error-status range. -/
def isErrorHandlerFlag (s : String) : Bool :=
  match statusCapture s with
  | none => false
  | some digits =>
    match digits.toList.drop 1 with
    | [] => false
    | c :: _ => isErrorStatus (c.toNat - 48)

/-- The role a route file is dispatched to by `indexRoutes`
(`if (isMiddleware) … else if (isData) … else if (isErrorHandler) … else` page). -/
inductive FileRole
  | middleware
  | data
  | errorHandler (status : Nat)
  | page
deriving Repr, DecidableEq

/-- Role dispatch for one walked file; the error-handler registration uses
`+status`, the full captured digit string. -/
def classifyRouteFile (pathname : String) : FileRole :=
  if isMiddlewareFile pathname then .middleware
  else if isDataFile pathname then .data
  else if isErrorHandlerFlag pathname then
    .errorHandler (digitsToNat ((statusCapture pathname).getD ""))
  else .page

/-- The skip test: a file matching the ignore pattern is dropped unless it
is a data / middleware / error-handler file. -/
def skipsFile (ignoreMatches : Bool) (pathname : String) : Bool :=
  !(isDataFile pathname || isMiddlewareFile pathname || isErrorHandlerFlag pathname)
    && ignoreMatches

/-! ## Static indexer: the conditional-caching GET handler -/

/-- A walked static asset after its processors ran. -/
structure StaticFile where
  pathname : String
  content : String
  type : String
  etag : String
deriving Repr, DecidableEq

/-- The request URL as the handler sees it: pathname plus search params. -/
structure Url where
  path : String
  query : List (String × String)
deriving Repr, DecidableEq

/-- `url.searchParams.get(k)`: first value under the key, `null` if none. -/
def getParam (u : Url) (k : String) : Option String :=
  (u.query.find? (·.1 == k)).map (·.2)

/-- `url.searchParams.delete(k)`: removes every pair under the key. -/
def deleteParam (u : Url) (k : String) : Url :=
  { u with query := u.query.filter (·.1 != k) }

/-- JS truthiness of the nullable `cacheId` string (`null` and `""` are
falsy). -/
def truthyParam : Option String → Bool
  | none => false
  | some v => v != ""

/-- The `etagsMatch` helper: strip one leading `W/` from each side
(`replace(/^W\//, "")`) and compare. -/
def etagsMatch (a b : String) : Bool :=
  (if strStartsWith a "W/" then a.drop 2 else a)
    == (if strStartsWith b "W/" then b.drop 2 else b)

/-- A handler result: `Response.redirect(url)` (status 302) or a
constructed `Response`. -/
inductive HttpResponse
  | redirect (location : Url)
  | content (body : Option String) (status : Nat) (headers : List (String × String))
deriving Repr, DecidableEq

/-- Status of a handler result (`Response.redirect` defaults to 302). -/
def statusOf : HttpResponse → Nat
  | .redirect _ => 302
  | .content _ s _ => s

/-- Body of a handler result (`Response.redirect` carries none). -/
def bodyOf : HttpResponse → Option String
  | .redirect _ => none
  | .content b _ _ => b

/-- Headers of a handler result. -/
def headersOf : HttpResponse → List (String × String)
  | .redirect _ => []
  | .content _ _ hs => hs

/-- The long-lived cache-control value. -/
def cacheControlValue : String := "public, max-age=31536000, immutable"

/-- The headers the static handler builds up front:
`new Headers({ "content-type": …, "vary": …, etag: … })`. -/
def baseHeaders (file : StaticFile) : List (String × String) :=
  [("content-type", file.type), ("vary", "If-None-Match"), ("etag", file.etag)]

/-- Those headers after the cache-id branch: a truthy cache id (which at
this point necessarily equals the build id) adds the long-lived
cache-control header. -/
def condHeaders (cacheKey : String) (file : StaticFile) (u : Url) :
    List (String × String) :=
  if truthyParam (getParam u cacheKey) then
    listSet "cache-control" cacheControlValue (baseHeaders file)
  else baseHeaders file

/-- The GET handler `indexStatic` registers for one asset.  `buildId` is
the process `BUILD_ID` and `cacheKey` the internal cache-id query key;
`inm` is the request's `if-none-match` header.  Stale cache id ⇒ redirect
with the key stripped; matching cache id ⇒ add cache-control; then the
conditional check decides 304-without-body versus 200-with-body. -/
def staticHandler (buildId cacheKey : String) (file : StaticFile) (u : Url)
    (inm : Option String) : HttpResponse :=
  if truthyParam (getParam u cacheKey) && (getParam u cacheKey != some buildId) then
    .redirect (deleteParam u cacheKey)
  else if etagsMatch file.etag (inm.getD "") then
    .content none 304 (condHeaders cacheKey file u)
  else .content (some file.content) 200 (condHeaders cacheKey file u)

/-! ## Concrete fixtures used by witnesses and counterexamples -/

/-- A callback that neither mutates nor throws. -/
def idCb : Callback := fun c => (c, false)

/-- A middleware whose run is observable: it sets an `x-mw` header. -/
def mwMark : Callback := fun c => ({ c with res := headersSet "x-mw" "ran" c.res }, false)

/-- A handler that throws immediately. -/
def throwingCb : Callback := fun c => (c, true)

/-- A `GET /a` request with no body. -/
def reqA : Request :=
  { method := "GET", path := "/a", hasBody := false, contentType := "",
    bodyDecodeFails := false }

/-- A `GET /none` request with no body (matches no route). -/
def reqNone : Request :=
  { method := "GET", path := "/none", hasBody := false, contentType := "",
    bodyDecodeFails := false }

/-- A `POST /a` request declaring a JSON body that is malformed, so
`await req.json()` rejects. -/
def reqBadJson : Request :=
  { method := "POST", path := "/a", hasBody := true,
    contentType := "application/json", bodyDecodeFails := true }

/-- A `TRACE /anything` request: its method is outside the accepted list. -/
def reqTrace : Request :=
  { method := "TRACE", path := "/anything", hasBody := false, contentType := "",
    bodyDecodeFails := false }

/-- A request bearing the literal method `*`. -/
def reqStar : Request :=
  { method := "*", path := "/nope", hasBody := false, contentType := "",
    bodyDecodeFails := false }

/-- A static asset with ETag `"abc"`. -/
def fileAbc : StaticFile :=
  { pathname := "/style.css", content := "body{}", type := "text/css", etag := "\"abc\"" }

/-- An upgrade state after a finalized response that had obtained socket 3. -/
def stSentSome : UpgradeState :=
  { available := true, socket := some 3, sent := true, channelName := "",
    channels := [("", [3])], fresh := 3 }

/-- A fresh upgradable request before any accessor call; the upgrade would
yield socket 5. -/
def stFresh : UpgradeState :=
  { available := true, socket := none, sent := false, channelName := "",
    channels := [], fresh := 5 }

/-- `stFresh` after one accessor call: socket 5 obtained and registered in
the default channel. -/
def stObtained : UpgradeState :=
  { available := true, socket := some 5, sent := false, channelName := "",
    channels := [("", [5])], fresh := 5 }

/-- A request without the `upgrade: websocket` header, while two other
connections (sockets 7 and 8) sit in channel `room1`. -/
def stNoUpgrade : UpgradeState :=
  { available := false, socket := none, sent := false, channelName := "",
    channels := [("room1", [7, 8])], fresh := 9 }

/-! ## Shared lemmas -/

/-- The dispatcher's for-loop over middleware agrees with a left fold over
the registration list when no middleware throws. -/
theorem runMiddleware_eq_foldl (mws : List Callback) (c : Ctx)
    (h : ∀ m ∈ mws, ∀ x, (m x).2 = false) :
    runMiddleware mws c = (mws.foldl (fun acc m => (m acc).1) c, false) := by
  induction mws generalizing c with
  | nil => rfl
  | cons m ms ih =>
    have hm : (m c).2 = false := h m (by simp) c
    have hms : ∀ x ∈ ms, ∀ y, (x y).2 = false := fun x hx y => h x (by simp [hx]) y
    simp only [runMiddleware, hm, Bool.false_eq_true, if_false, List.foldl_cons]
    exact ih (m c).1 hms

/-- A method among the five CRUD methods is accepted by the dispatcher. -/
theorem method_in_five_contains (m : String)
    (hm : m ∈ ["POST", "GET", "PUT", "PATCH", "DELETE"]) :
    RequestMethods.contains m = true := by
  simp only [List.mem_cons, List.not_mem_nil, or_false] at hm
  rcases hm with rfl | rfl | rfl | rfl | rfl <;> rfl

/-- When the accessor yields no socket, it also left the state untouched. -/
theorem socketAccessor_none_fixes_state (st : UpgradeState)
    (h : (socketAccessor st).1 = none) : socketAccessor st = (none, st) := by
  obtain ⟨av, sock, sent, nm, ch, fr⟩ := st
  cases av <;> cases sent <;> cases sock <;>
    first
      | rfl
      | (exfalso; simp [socketAccessor] at h)

/-! ## Claim theorems -/

/-- C1: route resolution is claimed to return the first registered entry
whose method is ANY (`*`) or equals the request method and whose pattern
matches.  The code instead tests `["*", route[0]].includes(method)` — the
*request* method against the wildcard — so an entry registered with the
wildcard method `*` is never resolved for a `GET` request even when its
pattern matches, while the same pattern under method `GET` does resolve
(here even through a trailing slash). -/
theorem c1_wildcard_route_never_resolves :
    getRoute [{ method := "*", pattern := compilePathname "/a", callback := idCb }]
        "GET" "/a" = none
  ∧ (getRoute [{ method := "GET", pattern := compilePathname "/a", callback := idCb }]
        "GET" "/a/").isSome = true :=
  ⟨rfl, rfl⟩

/-- C2 (amended): for a request whose method is one of the five CRUD
methods, when the body decode does not throw, the primary handler (or the
404 preset on a routing miss) does not throw, and no middleware throws,
the dispatcher runs every registered middleware in registration order
after the primary handler, threading the single request context through
(the JS code mutates one shared `ctx` object), and then finalizes; this
does not extend to the throw paths — a rejected body decode or a thrown
handler error jumps to the `catch`, skipping all middleware (see the
counterexample). -/
theorem dispatch_runs_middleware_in_order (routes : List RouteEntry)
    (mws : List Callback) (r : Request)
    (hm : r.method ∈ ["POST", "GET", "PUT", "PATCH", "DELETE"])
    (hp : (parseBody r (mkCtx r)).2 = false)
    (hh : (handleStage routes r (parseBody r (mkCtx r)).1).2 = false)
    (hmw : ∀ m ∈ mws, ∀ c, (m c).2 = false) :
    dispatch routes mws r =
      finalizeCtx (mws.foldl (fun c m => (m c).1)
        (handleStage routes r (parseBody r (mkCtx r)).1).1) := by
  unfold dispatch
  rw [if_pos (method_in_five_contains r.method hm)]
  dsimp only
  rw [hp]
  simp only [Bool.false_eq_true, if_false]
  rw [hh]
  simp only [Bool.false_eq_true, if_false]
  rw [runMiddleware_eq_foldl mws _ hmw]
  rfl

/-- C2 witness: a routing miss (404 preset) still runs the registered
middleware, observable through the header it sets. -/
theorem c2_witness :
    dispatch [] [mwMark] reqNone
      = finalizeCtx (List.foldl (fun c m => (m c).1)
          (handleStage [] reqNone (parseBody reqNone (mkCtx reqNone)).1).1 [mwMark]) :=
  dispatch_runs_middleware_in_order [] [mwMark] reqNone (by simp [reqNone])
    rfl rfl (by intro m hm c; simp at hm; subst hm; rfl)

/-- C2 counterexample: with a matched handler that throws and one
registered middleware, the middleware's observable effect (an `x-mw`
header) is absent from the finalized response — the `catch` around the
body decode, the handler and the middleware loop skips middleware on a
thrown error — refuting the claim that middleware also runs when the
handler threw; a malformed JSON body (`reqBadJson`) likewise rejects
inside the `try` and reaches the 500 preset with no middleware run. -/
theorem c2_middleware_skipped_on_handler_throw :
    (dispatch [{ method := "GET", pattern := compilePathname "/a", callback := throwingCb }]
        [mwMark] reqA).res.headers = []
  ∧ (dispatch [{ method := "GET", pattern := compilePathname "/a", callback := throwingCb }]
        [mwMark] reqA).res.status = 500
  ∧ ((mwMark (mkCtx reqA)).1.res.headers) = [("x-mw", "ran")]
  ∧ (dispatch [] [mwMark] reqBadJson).res.headers = []
  ∧ (dispatch [] [mwMark] reqBadJson).res.status = 500
  ∧ (dispatch [] [mwMark] reqBadJson).req.bodyType = none :=
  ⟨rfl, rfl, rfl, rfl, rfl, rfl⟩

/-- C3 (amended): a request whose method is outside the dispatcher's
accepted list — the five CRUD methods *plus the wildcard `*`*, which the
code also accepts — skips body parsing, routing and middleware entirely
(the result does not depend on the registered routes or middleware) and
finalizes with 501 Not Implemented. -/
theorem dispatch_unlisted_method_501 (routes : List RouteEntry)
    (mws : List Callback) (r : Request)
    (h : RequestMethods.contains r.method = false) :
    dispatch routes mws r
        = finalizeCtx { mkCtx r with res := (sendStatus 501 (mkCtx r).res).1 }
      ∧ (dispatch routes mws r).res.status = 501
      ∧ (dispatch routes mws r).res.body = "501 Not Implemented"
      ∧ (dispatch routes mws r).req.bodyType = none := by
  have he : dispatch routes mws r
      = finalizeCtx { mkCtx r with res := (sendStatus 501 (mkCtx r).res).1 } := by
    unfold dispatch
    rw [h]
    simp
  exact ⟨he, by rw [he]; rfl, by rw [he]; rfl, by rw [he]; rfl⟩

/-- C3 witness: `TRACE /anything` is answered 501 with no body decoding,
whatever is registered. -/
theorem c3_witness :
    (dispatch [] [mwMark] reqTrace).res.status = 501
  ∧ (dispatch [] [mwMark] reqTrace).res.body = "501 Not Implemented" :=
  ⟨(dispatch_unlisted_method_501 [] [mwMark] reqTrace rfl).2.1,
   (dispatch_unlisted_method_501 [] [mwMark] reqTrace rfl).2.2.1⟩

/-- C3 counterexample: a request with the literal method `*` is *not* one
of POST/GET/PUT/PATCH/DELETE, yet the dispatcher does not answer 501: the
accepted-method list also contains `*`, so the request is routed (here to
the 404 preset, with middleware running). -/
theorem c3_star_method_is_routed_not_501 :
    (dispatch [] [] reqStar).res.status = 404
  ∧ ("*" ∈ (["POST", "GET", "PUT", "PATCH", "DELETE"] : List String)) = False :=
  ⟨rfl, by simp⟩

/-- C4: compiling the route-file path `/blog/[slug]/index.md` (extension
stripped) is claimed to yield the pattern `/blog/:slug`.  The source's
`[name]` branch evaluates `` `:${part.slice(1, -1)}` `` without returning
it, so the segment stays the literal `[slug]`: the compiled pathname is
`/blog/[slug]` — which matches its own inline comment's promise
(`/user/[id]` matching `/user/6448`) nowhere — and the request
`/blog/hello-world` does not match, extracting no `slug` parameter. -/
theorem c4_named_param_segment_left_literal :
    pathToPatternPathname (stripExtension "/blog/[slug]/index.md") = "/blog/[slug]"
  ∧ patMatch (compilePathname
        (pathToPatternPathname (stripExtension "/blog/[slug]/index.md")))
        "/blog/hello-world" = none
  ∧ patMatch (compilePathname "/blog/:slug") "/blog/hello-world"
      = some [("slug", "hello-world")] :=
  ⟨rfl, rfl, rfl⟩

/-- C5 (amended): when the request does not carry a stale truthy cache-id
(absent, empty, or equal to the current build id), the static-asset
handler answers 304 with no body when `if-none-match` weakly matches the
asset's ETag, and 200 with the full content otherwise — the ETag header
set in both cases.  The "regardless of the cache-id query value" part of
the claim fails: a stale cache-id redirects before the conditional check
(see the counterexample). -/
theorem staticHandler_conditional_when_not_stale
    (buildId cacheKey : String) (file : StaticFile) (u : Url) (inm : Option String)
    (h : (truthyParam (getParam u cacheKey)
          && (getParam u cacheKey != some buildId)) = false) :
    (etagsMatch file.etag (inm.getD "") = true →
      staticHandler buildId cacheKey file u inm
        = .content none 304 (condHeaders cacheKey file u))
  ∧ (etagsMatch file.etag (inm.getD "") = false →
      staticHandler buildId cacheKey file u inm
        = .content (some file.content) 200 (condHeaders cacheKey file u))
  ∧ (condHeaders cacheKey file u).lookup "etag" = some file.etag := by
  refine ⟨?_, ?_, ?_⟩
  · intro he
    unfold staticHandler
    rw [h, he]
    rfl
  · intro he
    unfold staticHandler
    rw [h, he]
    rfl
  · unfold condHeaders
    cases htp : truthyParam (getParam u cacheKey) <;> rfl

/-- C5 witness: with no cache-id, ETag `"abc"` and `if-none-match:
W/"abc"` weak-match to a 304 with no body; a mismatched tag gets the full
200 body. -/
theorem c5_witness :
    staticHandler "NEW" "cacheid" fileAbc { path := "/style.css", query := [] }
        (some "W/\"abc\"")
      = .content none 304 (condHeaders "cacheid" fileAbc { path := "/style.css", query := [] })
  ∧ staticHandler "NEW" "cacheid" fileAbc { path := "/style.css", query := [] }
        (some "\"xyz\"")
      = .content (some fileAbc.content) 200
          (condHeaders "cacheid" fileAbc { path := "/style.css", query := [] }) :=
  ⟨(staticHandler_conditional_when_not_stale "NEW" "cacheid" fileAbc
      { path := "/style.css", query := [] } (some "W/\"abc\"") rfl).1 rfl,
   (staticHandler_conditional_when_not_stale "NEW" "cacheid" fileAbc
      { path := "/style.css", query := [] } (some "\"xyz\"") rfl).2.1 rfl⟩

/-- C5 counterexample: a stale cache-id (`OLD` against build id `NEW`)
triggers the redirect even though `if-none-match` equals the asset's ETag
exactly — refuting "regardless of the cache-id query value … responds
304". -/
theorem c5_stale_id_beats_matching_etag :
    staticHandler "NEW" "cacheid" fileAbc
        { path := "/style.css", query := [("cacheid", "OLD")] } (some "\"abc\"")
      = .redirect { path := "/style.css", query := [] }
  ∧ etagsMatch fileAbc.etag "\"abc\"" = true
  ∧ statusOf (staticHandler "NEW" "cacheid" fileAbc
        { path := "/style.css", query := [("cacheid", "OLD")] } (some "\"abc\"")) = 302 :=
  ⟨rfl, rfl, rfl⟩

/-- C6: a truthy cache-id query value differing from the current build id
makes the static-asset handler answer a 302 redirect to the same path with
the cache-id parameter deleted, whatever the conditional header says. -/
theorem staticHandler_stale_cache_redirect
    (buildId cacheKey : String) (file : StaticFile) (u : Url) (inm : Option String)
    (v : String) (hv : getParam u cacheKey = some v) (hne : v ≠ "")
    (hnb : v ≠ buildId) :
    staticHandler buildId cacheKey file u inm = .redirect (deleteParam u cacheKey)
  ∧ statusOf (staticHandler buildId cacheKey file u inm) = 302 := by
  have hcond : (truthyParam (getParam u cacheKey)
      && (getParam u cacheKey != some buildId)) = true := by
    rw [hv]
    simp [truthyParam, hne, hnb]
  have he : staticHandler buildId cacheKey file u inm
      = .redirect (deleteParam u cacheKey) := by
    unfold staticHandler
    rw [hcond]
    rfl
  exact ⟨he, by rw [he]; rfl⟩

/-- C6 witness: `GET /style.css?cacheid=OLD` under build id `NEW`
redirects (302) to `/style.css` with no query left. -/
theorem c6_witness :
    staticHandler "NEW" "cacheid" fileAbc
        { path := "/style.css", query := [("cacheid", "OLD")] } none
      = .redirect { path := "/style.css", query := [] } :=
  (staticHandler_stale_cache_redirect "NEW" "cacheid" fileAbc
    { path := "/style.css", query := [("cacheid", "OLD")] } none "OLD"
    rfl (by decide) (by decide)).1

/-- C7: a route file named `_404.html` carries a valid HTTP error status,
so the claim registers it as an error handler exempt from the ignore
pattern.  The code computes `isErrorStatus(+status?.[1])` — coercing the
*second character* of the captured digits, here `0`, never an error
status — so the flag is false: the file classifies as a page and is
skipped when the ignore pattern matches it. -/
theorem c7_error_status_file_classified_as_page :
    classifyRouteFile "/routes/_404.html" = .page
  ∧ skipsFile true "/routes/_404.html" = true
  ∧ statusCapture "/routes/_404.html" = some "404"
  ∧ isErrorStatus (digitsToNat "404") = true
  ∧ isErrorHandlerFlag "/routes/_404.html" = false :=
  ⟨rfl, rfl, rfl, rfl, rfl⟩

/-- C8 (amended): the upgrade-socket accessor is memoized — a second call
returns exactly the first call's result and leaves the state unchanged —
and once the response is finalized it performs no upgrade, returning the
previously obtained socket when one exists and nothing otherwise (not
unconditionally nothing, see the counterexample). -/
theorem socketAccessor_memoized (st : UpgradeState) :
    socketAccessor (socketAccessor st).2 = ((socketAccessor st).1, (socketAccessor st).2)
  ∧ (st.sent = true →
      socketAccessor st = ((if st.available then st.socket else none), st)) := by
  obtain ⟨av, sock, sent, nm, ch, fr⟩ := st
  constructor
  · cases av <;> cases sent <;> cases sock <;> simp [socketAccessor]
  · intro hsent
    subst hsent
    cases av <;> cases sock <;> simp [socketAccessor]

/-- C8 witness: on a finalized request that had obtained socket 3, the
accessor returns that same socket again. -/
theorem c8_witness : socketAccessor stSentSome = (some 3, stSentSome) := by
  have h := (socketAccessor_memoized stSentSome).2 rfl
  simpa [stSentSome] using h

/-- C8 counterexample: starting from an upgradable request, the first
accessor call yields socket 5; after the response is finalized a further
call returns `some 5`, not nothing — refuting "calling the accessor after
the response is finalized returns nothing". -/
theorem c8_socket_after_finalize_not_none :
    (socketAccessor stFresh).2 = stObtained
  ∧ (socketAccessor { stObtained with sent := true }).1 = some 5 :=
  ⟨rfl, rfl⟩

/-- C9 (amended): after finalization (`sent = true` then `Object.freeze`)
property assignments to the response facet — body, status, the headers
binding, and the `sendStatus` helper built from them — are rejected: the
source is strict-mode module code, so each such assignment throws
`TypeError` (flag `true`) and leaves the facet unchanged; the freeze is
shallow, however, so the `Headers` object's contents remain mutable
through header-level operations (see the counterexample). -/
theorem frozen_response_assignments_rejected (r : ResFacet) (v : String) (s : Nat)
    (hs : List (String × String)) :
    assignBody v (finalizeRes r) = (finalizeRes r, true)
  ∧ assignStatus s (finalizeRes r) = (finalizeRes r, true)
  ∧ assignHeaders hs (finalizeRes r) = (finalizeRes r, true)
  ∧ sendStatus s (finalizeRes r) = (finalizeRes r, true)
  ∧ (finalizeRes r).sent = true :=
  ⟨rfl, rfl, rfl, rfl, rfl⟩

/-- C9 witness: at a concrete finalized facet, body and status-line
assignments throw and change nothing. -/
theorem c9_witness :
    assignBody "late" (finalizeRes initRes) = (finalizeRes initRes, true)
  ∧ sendStatus 200 (finalizeRes initRes) = (finalizeRes initRes, true) :=
  ⟨(frozen_response_assignments_rejected initRes "late" 200 []).1,
   (frozen_response_assignments_rejected initRes "late" 200 []).2.2.2.1⟩

/-- C9 counterexample: `Object.freeze` is shallow — after finalization
(`sent = true`), `markForDownload` still mutates the headers through
`Headers.set`, an observable mutation of the frozen response facet,
refuting "no subsequent mutation of its body, status, or headers is
observable". -/
theorem c9_headers_mutate_after_freeze :
    (finalizeRes initRes).sent = true
  ∧ (finalizeRes initRes).headers = []
  ∧ (markForDownload none (finalizeRes initRes)).headers
      = [("content-disposition", "attachment")] :=
  ⟨rfl, rfl, rfl⟩

/-- C10: when the upgrade-socket accessor yields nothing (upgrade header
absent, or response finalized with no prior socket), `channel.join(name)`
still sets the context's current channel name to `name` while leaving
every membership set untouched; a subsequent broadcast therefore targets
exactly the sockets other connections registered under `name`, though this
connection never joined any membership set. -/
theorem channelJoin_updates_name_without_socket (st : UpgradeState) (name : String)
    (h : (socketAccessor st).1 = none) :
    (channelJoin name st).channelName = name
  ∧ (channelJoin name st).channels = st.channels
  ∧ broadcastTargets (channelJoin name st) = (lookupChannel name st.channels).getD [] := by
  have hacc : socketAccessor st = (none, st) := socketAccessor_none_fixes_state st h
  unfold channelJoin broadcastTargets
  rw [hacc]
  exact ⟨rfl, rfl, rfl⟩

/-- C10 witness: a connection without the upgrade header joins `room1`,
adds itself to no membership set, and its broadcast targets the two
sockets (7 and 8) other connections registered there. -/
theorem c10_witness :
    (channelJoin "room1" stNoUpgrade).channelName = "room1"
  ∧ (channelJoin "room1" stNoUpgrade).channels = [("room1", [7, 8])]
  ∧ broadcastTargets (channelJoin "room1" stNoUpgrade) = [7, 8] := by
  have h := channelJoin_updates_name_without_socket stNoUpgrade "room1" rfl
  exact ⟨h.1, h.2.1, h.2.2⟩

end Nadder
